import Mathlib

/-!
Shallow embedding of the interactive-canvas engine of
`src/components/InfiniteCanvas.tsx`: a PixiJS infinite canvas with
draggable, resizable image and text objects, single-click selection,
mouse-wheel scaling, debounced auto-save and tolerant document load.

Modelling conventions:
* JavaScript numbers are modelled as rationals (`ℚ`), pointer identifiers
  as integers, string values as `String`.
* Pointer-to-center distances (the `Math.hypot` results stored in
  `startProj` and recomputed in the move handlers) are taken as gesture
  inputs; both the start and the move handler of a resize gesture compute
  them by the same expression on the same global-space coordinate pair.
* Asynchronous texture resolution (`Assets.load` / `PIXI.Texture.from`
  plus the readiness wait) is modelled by an environment
  `resolve : String → Option (ℚ × ℚ)` returning the intrinsic texture
  dimensions on success and `none` on any failure (decode error or
  timeout); in the source every per-object failure is caught by the
  surrounding `try`/`catch` of the loop body and the object is skipped.
-/

namespace Canvas

/-- Image object as held in the `images` React state together with its Pixi
node (`DraggableImage` plus the `DraggableResizable` node): `x`, `y` are the
node's container-space (world) position, `scale` the uniform sprite scale,
`texW` / `texH` the texture's intrinsic pixel dimensions. -/
structure LiveImage where
  id : String
  imageUrl : String
  x : ℚ
  y : ℚ
  scale : ℚ
  texW : ℚ
  texH : ℚ
deriving DecidableEq

/-- Text object as held in the `texts` React state together with its
`DraggableResizableText` node. The React record (`DraggableText`) has no
scale field; `scale` here models the node's text scale, which is what
`saveToAPI` reads back through `node.getScale()`. -/
structure LiveText where
  id : String
  text : String
  x : ℚ
  y : ℚ
  color : String
  fontFamily : String
  scale : ℚ
deriving DecidableEq

/-- Persisted image entry (`StoredImageData`). -/
structure StoredImageData where
  id : String
  imageUrl : String
  x : ℚ
  y : ℚ
  scale : ℚ
deriving DecidableEq

/-- Persisted text entry (`StoredTextData`). -/
structure StoredTextData where
  id : String
  text : String
  x : ℚ
  y : ℚ
  color : String
  fontFamily : String
  scale : ℚ
deriving DecidableEq

/-- Persisted document (`CanvasData`); `canvasPosX` / `canvasPosY` are the
`canvasPosition` pan offset of the main container. -/
structure CanvasData where
  images : List StoredImageData
  texts : List StoredTextData
  canvasPosX : ℚ
  canvasPosY : ℚ
deriving DecidableEq

/-- Live state of the `InfiniteCanvas` component: the two object
collections, the two selection references and the main container's pan
offset (`container.x` / `container.y`). -/
structure CanvasState where
  images : List LiveImage
  texts : List LiveText
  selectedImage : Option LiveImage
  selectedText : Option LiveText
  panX : ℚ
  panY : ℚ
deriving DecidableEq

/-- JavaScript `Math.min` on two numbers. -/
def jsMin (a b : ℚ) : ℚ := if a ≤ b then a else b

/-- JavaScript `Math.max` on two numbers. -/
def jsMax (a b : ℚ) : ℚ := if a ≤ b then b else a

/-- Scale constraints as returned by
`DraggableResizable.getScaleConstraints`: `minPx = 20`,
`minScale = Math.max(0.05, minPx / minTexDim)`, `maxScale = 8`. -/
structure ScaleConstraints where
  min : ℚ
  max : ℚ
deriving DecidableEq

/-- `DraggableResizable.getScaleConstraints` (InfiniteCanvas.tsx lines
548–554). -/
def getScaleConstraints (texW texH : ℚ) : ScaleConstraints :=
  { min := jsMax 0.05 (20 / jsMin texW texH), max := 8 }

/-- Initial sprite scale chosen in the `DraggableResizable` constructor
(lines 358–362): `s = Math.min(1, 200 / Math.max(iw, ih))`. -/
def initialImageScale (texW texH : ℚ) : ℚ :=
  jsMin 1 (200 / jsMax texW texH)

/-- `DraggableResizable.onResizeMove` (lines 455–477): scale factor is the
ratio of the current to the starting pointer-to-center distance (both
measured in global space), applied to the scale snapshotted at gesture
start and clamped by `Math.min(max, Math.max(min, newScale))`. -/
def onResizeMoveImage (startScale startProj currentProj texW texH : ℚ) : ℚ :=
  let factor := currentProj / startProj
  let newScale := startScale * factor
  let c := getScaleConstraints texW texH
  jsMin c.max (jsMax c.min newScale)

/-- `DraggableResizableText.onResizeMove` (lines 224–240): the text variant
clamps with fixed literals `Math.max(0.1, Math.min(5, ...))` instead of
`getScaleConstraints`. -/
def onResizeMoveText (startScale startProj currentProj : ℚ) : ℚ :=
  let scaleFactor := currentProj / startProj
  jsMax 0.1 (jsMin 5 (startScale * scaleFactor))

/-- Resize-scale formula as the specification states it:
`clamp(startScale × (currentDistance / startDistance), minScale, maxScale)`. -/
def specResizeScale (startScale startDist currentDist minScale maxScale : ℚ) : ℚ :=
  jsMin maxScale (jsMax minScale (startScale * (currentDist / startDist)))

/-- Drag state of a `DraggableResizable` node: `dragging` flag, captured
pointer identifier and the offset between global pointer and node position
stored by `onDragStart` (lines 381–389). -/
structure DragState where
  dragging : Bool
  pointerId : Option ℤ
  offX : ℚ
  offY : ℚ
deriving DecidableEq

/-- `DraggableResizable.onDragStart` (lines 381–389): capture the pointer
identifier and the offset `e.global − this.position`. -/
def onDragStartImage (gpx gpy nodeX nodeY : ℚ) (pid : ℤ) : DragState :=
  { dragging := true, pointerId := some pid, offX := gpx - nodeX, offY := gpy - nodeY }

/-- `DraggableResizable.onDragMove` (lines 391–395): with the matching
pointer identifier, set the position to `e.global − dragOffset`; otherwise
the position is left unchanged. -/
def onDragMoveImage (st : DragState) (pid : ℤ) (gpx gpy nodeX nodeY : ℚ) : ℚ × ℚ :=
  if st.dragging ∧ st.pointerId = some pid then (gpx - st.offX, gpy - st.offY)
  else (nodeX, nodeY)

/-- Mouse-wheel scaling `handleWheel` (lines 806–828). The handler reads
`selectedImageRef.current` and returns immediately when no image is
selected — a selected text object is never considered. Otherwise it
applies `factor = Math.pow(1.0015, -deltaY)` (exponent doubled when
`ctrlKey` holds), clamps with `Math.max(min, Math.min(max, current *
factor))` using `getScaleConstraints`, writes the clamped scale to the
node, to the `images` entry and to `selectedImage`, and schedules the
debounced auto-save.  The returned boolean records whether
`debouncedAutoSaveRef.current` was invoked.  Wheel deltas are modelled as
integers so that the exponential stays inside `ℚ`. -/
def handleWheel (s : CanvasState) (deltaY : ℤ) (ctrl : Bool) : CanvasState × Bool :=
  match s.selectedImage with
  | none => (s, false)
  | some sel =>
    let base : ℚ := 1.0015
    let factor : ℚ := if ctrl then base ^ (-(deltaY * 2)) else base ^ (-deltaY)
    let current := sel.scale
    let c := getScaleConstraints sel.texW sel.texH
    let clamped := jsMax c.min (jsMin c.max (current * factor))
    ({ s with
        selectedImage := some { sel with scale := clamped },
        images := s.images.map fun img =>
          if img.id = sel.id then { img with scale := clamped } else img },
     true)

/-- Wheel-scale formula as the specification states it:
`clamp(scale × base^(∓Δ), minScale, maxScale)` with `base = 1.0015` and
the exponent's magnitude doubled under the accelerator modifier. -/
def specWheelScale (scale texW texH : ℚ) (deltaY : ℤ) (ctrl : Bool) : ℚ :=
  let c := getScaleConstraints texW texH
  jsMax c.min (jsMin c.max (scale * (1.0015 : ℚ) ^ (-(if ctrl then deltaY * 2 else deltaY))))

/-- Selection references of the component: `selectedImage` and
`selectedText`, reduced to the ids of their referents. -/
structure SelState where
  selImage : Option String
  selText : Option String
deriving DecidableEq

/-- Selection-relevant user events:
* `clickImage` — single click on an image sprite (the `pointerdown`
  handler installed in `createSpriteFromTexture`, lines 903–936, and its
  twin in `loadFromAPI`);
* `clickText` — click on a text node (handler installed in
  `createTextElement`, lines 1674–1703, and its twin in `loadCanvasData`);
* `background` — `pointerdown` whose target is the container itself
  (lines 693–714);
* `deleteImage` / `deleteText` — `handleDeleteImage` (lines 1593–1611) and
  `handleDeleteText` (lines 1614–1632). -/
inductive SelEvent where
  | clickImage (id : String)
  | clickText (id : String)
  | background
  | deleteImage (id : String)
  | deleteText (id : String)

/-- One step of the selection behaviour, translated handler by handler:
the image click handler hides the previously selected image's frame and
calls `setSelectedImage` but never touches `selectedText`; the text click
handler clears both previous selections before selecting the text; a
background click calls `setSelectedImage(null)` and `setSelectedText
(null)`; deletion clears the matching selection reference only. -/
def selStep (s : SelState) : SelEvent → SelState
  | .clickImage id => { s with selImage := some id }
  | .clickText id => { selImage := none, selText := some id }
  | .background => { selImage := none, selText := none }
  | .deleteImage id => if s.selImage = some id then { s with selImage := none } else s
  | .deleteText id => if s.selText = some id then { s with selText := none } else s

/-- Initial selection state: nothing selected. -/
def initialSel : SelState := { selImage := none, selText := none }

/-- Selection states reachable from the initial state by user events. -/
inductive SelReachable : SelState → Prop where
  | init : SelReachable initialSel
  | step {s : SelState} (e : SelEvent) : SelReachable s → SelReachable (selStep s e)

/-- Number of objects currently selected (image slot plus text slot). -/
def countSelected (s : SelState) : ℕ :=
  (if s.selImage.isSome then 1 else 0) + (if s.selText.isSome then 1 else 0)

/-- JavaScript `v || d` on numbers: the default replaces a falsy (zero)
value. `saveToAPI` reads `img.node?.x || 0` and `node?.getScale() || 1`. -/
def jsOrQ (v d : ℚ) : ℚ := if v = 0 then d else v

/-- Validity check applied to an image reference before saving or
materializing: `!img.imageUrl || typeof img.imageUrl !== 'string'` — in the
typed model a url is invalid exactly when it is the empty (falsy) string. -/
def validImageUrl (url : String) : Bool := !url.isEmpty

/-- Per-image serialization step of `saveToAPI` (lines 1039–1055): an
image with an invalid url maps to `null` (filtered out below); position
and scale are read from the live node with `|| 0` / `|| 1` fallbacks. -/
def saveImageEntry (img : LiveImage) : Option StoredImageData :=
  if validImageUrl img.imageUrl then
    some { id := img.id, imageUrl := img.imageUrl,
           x := jsOrQ img.x 0, y := jsOrQ img.y 0,
           scale := jsOrQ img.scale 1 }
  else none

/-- Per-text serialization step of `saveToAPI` (lines 1056–1067). -/
def saveTextEntry (t : LiveText) : StoredTextData :=
  { id := t.id, text := t.text, x := jsOrQ t.x 0, y := jsOrQ t.y 0,
    color := t.color, fontFamily := t.fontFamily,
    scale := jsOrQ t.scale 1 }

/-- `saveToAPI` serialization (lines 1032–1095): images with an invalid
url are mapped to `null` and filtered out; the pan offset is the container
position. -/
def saveToAPI (s : CanvasState) : CanvasData :=
  { images := s.images.filterMap saveImageEntry,
    texts := s.texts.map saveTextEntry,
    canvasPosX := s.panX, canvasPosY := s.panY }

/-- JavaScript `Math.round`: round half towards positive infinity. -/
def jsRound (q : ℚ) : ℤ := ⌊q + 1 / 2⌋

/-- Image-materialization loop of `loadCanvasData` (lines 1123–1224): skip
entries with an invalid url, skip entries whose texture fails to resolve
(every failure of the loop body is caught by its `try`/`catch` and the
loop continues), round the stored position with `Math.round` and apply the
stored scale unclamped through `node.setScale`. -/
def loadImages (resolve : String → Option (ℚ × ℚ)) (stored : List StoredImageData) :
    List LiveImage :=
  stored.filterMap fun si =>
    if validImageUrl si.imageUrl then
      match resolve si.imageUrl with
      | some (w, h) =>
          some { id := si.id, imageUrl := si.imageUrl,
                 x := (jsRound si.x : ℚ), y := (jsRound si.y : ℚ),
                 scale := si.scale, texW := w, texH := h }
      | none => none
    else none

/-- Text-materialization loop of `loadCanvasData` (lines 1228–1340): skip
entries with empty (falsy) text content; the position is applied exactly;
`setScale` is only called when the stored scale is truthy, so a zero scale
leaves the node at its default scale 1. -/
def loadTexts (stored : List StoredTextData) : List LiveText :=
  stored.filterMap fun st =>
    if st.text.isEmpty then none
    else
      some { id := st.id, text := st.text, x := st.x, y := st.y,
             color := st.color, fontFamily := st.fontFamily,
             scale := if st.scale = 0 then 1 else st.scale }

/-- `loadCanvasData` (lines 1097–1341): destroy and clear both existing
collections and both selections, restore the pan offset exactly, then
materialize images and texts from the document. -/
def loadCanvasData (resolve : String → Option (ℚ × ℚ)) (d : CanvasData) : CanvasState :=
  { images := loadImages resolve d.images,
    texts := loadTexts d.texts,
    selectedImage := none, selectedText := none,
    panX := d.canvasPosX, panY := d.canvasPosY }

/-- `importFromJSON` (lines 1343–1361): parse the chosen file and feed the
document to `loadCanvasData`. -/
def importFromJSON (resolve : String → Option (ℚ × ℚ)) (d : CanvasData) : CanvasState :=
  loadCanvasData resolve d

/-- Image-materialization loop of `loadFromAPI` (lines 1392–1502),
translated separately from `loadImages` because the source duplicates the
loop (resolving through `Assets.load` instead of `PIXI.Texture.from` plus
a readiness wait — both are the `resolve` environment here): skip invalid
urls, skip resolution failures, round positions, apply the stored scale
unclamped. -/
def loadImagesAPI (resolve : String → Option (ℚ × ℚ)) (stored : List StoredImageData) :
    List LiveImage :=
  stored.filterMap fun si =>
    if validImageUrl si.imageUrl then
      match resolve si.imageUrl with
      | some (w, h) =>
          some { id := si.id, imageUrl := si.imageUrl,
                 x := (jsRound si.x : ℚ), y := (jsRound si.y : ℚ),
                 scale := si.scale, texW := w, texH := h }
      | none => none
    else none

/-- `loadFromAPI` (lines 1363–1509): clear and re-materialize the images
and restore the pan offset, but — unlike `loadCanvasData` — never touch
the `texts` collection and never clear `selectedText`. -/
def loadFromAPI (resolve : String → Option (ℚ × ℚ)) (s : CanvasState) (d : CanvasData) :
    CanvasState :=
  { images := loadImagesAPI resolve d.images,
    texts := s.texts,
    selectedImage := none,
    selectedText := s.selectedText,
    panX := d.canvasPosX, panY := d.canvasPosY }

/-- The debounce window of `debouncedAutoSave` (lines 631–642):
`setTimeout(..., 2000)`. Times are in milliseconds. -/
def debounceDelay : ℚ := 2000

/-- The pair of collection lengths captured by a `debouncedAutoSave`
closure. `debouncedAutoSave` is a `useCallback` depending on
`images.length` and `texts.length`; the timeout callback tests exactly
these captured values (`if (images.length > 0 || texts.length > 0)`), not
the lengths at the moment the timer fires. -/
structure DebSnapshot where
  nImages : ℕ
  nTexts : ℕ
deriving DecidableEq

/-- One call of `debouncedAutoSaveRef.current` at `time`, carrying the
collection lengths captured in the closure that the ref held at that
moment (the lengths from the last completed render before the call). -/
structure Trigger where
  time : ℚ
  snap : DebSnapshot
deriving DecidableEq

/-- The timeout callback: when the captured lengths are non-empty it calls
`saveToAPIRef.current`, which always reflects the latest render and
serializes the state current at fire time — modelled by `stateAt`
evaluated at the fire time; otherwise no save happens. -/
def fireSave (stateAt : ℚ → CanvasData) (u : ℚ) (sn : DebSnapshot) :
    List (ℚ × CanvasData) :=
  if 0 < sn.nImages ∨ 0 < sn.nTexts then [(u, stateAt u)] else []

/-- Run the debounce machinery over a chronological list of trigger calls,
with the currently pending timer (fire time and captured snapshot).  Each
trigger first lets a pending timer that already expired fire, then clears
any still-pending timer (`clearTimeout`) and schedules a new one
`debounceDelay` after itself; after the last trigger the remaining timer
fires.  Returns the underlying save calls as (fire time, serialized
document) pairs. -/
def runDebounce (stateAt : ℚ → CanvasData) :
    List Trigger → Option (ℚ × DebSnapshot) → List (ℚ × CanvasData)
  | [], none => []
  | [], some (u, sn) => fireSave stateAt u sn
  | tr :: rest, none => runDebounce stateAt rest (some (tr.time + debounceDelay, tr.snap))
  | tr :: rest, some (u, sn) =>
      if u < tr.time then
        fireSave stateAt u sn ++
          runDebounce stateAt rest (some (tr.time + debounceDelay, tr.snap))
      else
        runDebounce stateAt rest (some (tr.time + debounceDelay, tr.snap))

/-- `handleDeleteImage` (lines 1593–1611): remove the image from the
collection, clear the selection if it held the deleted image, and invoke
`debouncedAutoSaveRef.current`.  The ref still holds the closure produced
from the last completed render, so the snapshot the scheduled timer will
test carries the PRE-deletion collection lengths; the function returns the
post-deletion state together with that captured snapshot. -/
def handleDeleteImage (s : CanvasState) (id : String) : CanvasState × DebSnapshot :=
  ({ s with
      images := s.images.filter fun img => img.id ≠ id,
      selectedImage := match s.selectedImage with
        | some si => if si.id = id then none else some si
        | none => none },
   { nImages := s.images.length, nTexts := s.texts.length })

/-! Helper lemmas. -/

/-- The JavaScript `|| 0` fallback on a number is the identity. -/
theorem jsOrQ_zero (v : ℚ) : jsOrQ v 0 = v := by
  unfold jsOrQ; split <;> simp_all

/-- The JavaScript `|| d` fallback leaves a non-zero number unchanged. -/
theorem jsOrQ_of_ne (v d : ℚ) (h : v ≠ 0) : jsOrQ v d = v := if_neg h

/-- `Math.min` is a lower bound of its first argument. -/
theorem jsMin_le_left (a b : ℚ) : jsMin a b ≤ a := by
  unfold jsMin; split <;> linarith

/-- `Math.min` is a lower bound of its second argument. -/
theorem jsMin_le_right (a b : ℚ) : jsMin a b ≤ b := by
  unfold jsMin; split <;> linarith

/-- `Math.max` is an upper bound of its first argument. -/
theorem le_jsMax_left (a b : ℚ) : a ≤ jsMax a b := by
  unfold jsMax; split <;> linarith

/-- `Math.max` is an upper bound of its second argument. -/
theorem le_jsMax_right (a b : ℚ) : b ≤ jsMax a b := by
  unfold jsMax; split <;> linarith

/-- `Math.max` is below any common upper bound. -/
theorem jsMax_le {a b c : ℚ} (h1 : a ≤ c) (h2 : b ≤ c) : jsMax a b ≤ c := by
  unfold jsMax; split <;> assumption

/-- `Math.min` is above any common lower bound. -/
theorem le_jsMin {a b c : ℚ} (h1 : c ≤ a) (h2 : c ≤ b) : c ≤ jsMin a b := by
  unfold jsMin; split <;> assumption

/-- `Math.round` moves a value by at most one half. -/
theorem jsRound_abs_le (q : ℚ) : |(jsRound q : ℚ) - q| ≤ 1 / 2 := by
  rw [abs_le]
  unfold jsRound
  constructor
  · have h := Int.sub_one_lt_floor (q + 1 / 2)
    have h2 : ((⌊q + 1 / 2⌋ : ℤ) : ℚ) > q + 1 / 2 - 1 := by exact_mod_cast h
    linarith
  · have h := Int.floor_le (q + 1 / 2)
    linarith

/-! C1 — selection exclusivity. -/

/-- State reached by selecting text `t1` and then clicking image `i1`:
a reachable state in which an image and a text are selected together. -/
def twoSelected : SelState :=
  selStep (selStep initialSel (.clickText "t1")) (.clickImage "i1")

/-- C1 counterexample: the single-selection invariant fails.  Selecting a
text object and then single-clicking an image object reaches a state with
two simultaneously selected objects, because the image click handler of
`createSpriteFromTexture` never clears `selectedText`. -/
theorem C1_counterexample_two_selected :
    ¬ (∀ s : SelState, SelReachable s → countSelected s ≤ 1) := by
  intro hclaim
  have hr : SelReachable twoSelected :=
    .step (.clickImage "i1") (.step (.clickText "t1") .init)
  exact absurd (hclaim twoSelected hr) (by decide)

/-- C1 (amended): at most one image and at most one text object are
selected at any instant (so never more than two objects in total);
selecting a text object atomically deselects everything else, leaving
exactly one selected object, and a background click deselects both; but
selecting an image object leaves a previously selected text object
selected. -/
theorem C1_selection_per_class :
    (∀ (s : SelState) (id : String), countSelected (selStep s (.clickText id)) = 1) ∧
    (∀ s : SelState, countSelected (selStep s .background) = 0) ∧
    (∀ (s : SelState) (id : String),
        (selStep s (.clickImage id)).selImage = some id ∧
        (selStep s (.clickImage id)).selText = s.selText) ∧
    (∀ s : SelState, countSelected s ≤ 2) := by
  refine ⟨?_, ?_, ?_, ?_⟩
  · intro s id; simp [selStep, countSelected]
  · intro s; simp [selStep, countSelected]
  · intro s id; simp [selStep]
  · intro s
    rcases s with ⟨si, st⟩
    cases si <;> cases st <;> simp [countSelected]

/-! C2 — scale bounds. -/

/-- Document whose single image entry carries a persisted scale of 100. -/
def overScaleDoc : CanvasData :=
  { images := [{ id := "i1", imageUrl := "a.png", x := 0, y := 0, scale := 100 }],
    texts := [], canvasPosX := 0, canvasPosY := 0 }

/-- C2 counterexample: the scale invariant fails on document load, which
applies the persisted scale through `node.setScale` without clamping: a
stored scale of 100 materializes an object with scale 100 > maxScale = 8. -/
theorem C2_counterexample_load_unclamped :
    ((loadCanvasData (fun _ => some (400, 400)) overScaleDoc).images.map
        fun i => i.scale) = [100] ∧
      ¬ ((100 : ℚ) ≤ (getScaleConstraints 400 400).max) := by
  constructor
  · simp [loadCanvasData, loadImages, overScaleDoc, validImageUrl,
      show ("a.png" : String).isEmpty = false from rfl]
  · norm_num [getScaleConstraints, jsMax, jsMin]

/-- C2 (amended): for image objects, resize-gesture moves keep the scale
in `[minScale, maxScale]` (provided `minScale ≤ maxScale`, i.e. the
texture's short side is at least 2.5 px), and wheel scaling keeps the
selected image's scale in the same interval; but object creation sets the
initial scale to `min(1, 200 / max(w, h))`, which can fall below
`minScale`; document load applies the persisted scale unclamped; and text
resize clamps to the fixed interval `[0.1, 5]` instead. -/
theorem C2_scale_bounds_amended :
    (∀ startScale startProj currentProj texW texH : ℚ,
        (getScaleConstraints texW texH).min ≤ (getScaleConstraints texW texH).max →
        (getScaleConstraints texW texH).min ≤
            onResizeMoveImage startScale startProj currentProj texW texH ∧
          onResizeMoveImage startScale startProj currentProj texW texH ≤
            (getScaleConstraints texW texH).max) ∧
    (∀ (imgs : List LiveImage) (txts : List LiveText) (selT : Option LiveText)
        (px py : ℚ) (sel : LiveImage) (deltaY : ℤ) (ctrl : Bool),
        (getScaleConstraints sel.texW sel.texH).min ≤
          (getScaleConstraints sel.texW sel.texH).max →
        ∀ i ∈ (handleWheel ⟨imgs, txts, some sel, selT, px, py⟩ deltaY ctrl).1.selectedImage,
          (getScaleConstraints sel.texW sel.texH).min ≤ i.scale ∧
            i.scale ≤ (getScaleConstraints sel.texW sel.texH).max) ∧
    (∃ texW texH : ℚ, initialImageScale texW texH < (getScaleConstraints texW texH).min) ∧
    (∀ (resolve : String → Option (ℚ × ℚ)) (si : StoredImageData) (w h : ℚ),
        validImageUrl si.imageUrl = true → resolve si.imageUrl = some (w, h) →
        (loadImages resolve [si]).map (fun i => i.scale) = [si.scale]) ∧
    (∀ startScale startProj currentProj : ℚ,
        (1 / 10 : ℚ) ≤ onResizeMoveText startScale startProj currentProj ∧
          onResizeMoveText startScale startProj currentProj ≤ 5) := by
  refine ⟨?_, ?_, ⟨2000, 30, by norm_num [initialImageScale, getScaleConstraints, jsMin, jsMax]⟩,
    ?_, ?_⟩
  · intro s sp cp w h hc
    unfold onResizeMoveImage
    constructor
    · exact le_jsMin hc (le_jsMax_left _ _)
    · exact jsMin_le_left _ _
  · intro imgs txts selT px py sel deltaY ctrl hc i hi
    simp only [handleWheel, Option.mem_def, Option.some.injEq] at hi
    subst hi
    constructor
    · exact le_jsMax_left _ _
    · exact jsMax_le hc (jsMin_le_left _ _)
  · intro resolve si w h hv hres
    simp [loadImages, hv, hres]
  · intro s sp cp
    unfold onResizeMoveText
    constructor
    · have h01 : (1 / 10 : ℚ) = 0.1 := by norm_num
      rw [h01]
      exact le_jsMax_left _ _
    · exact jsMax_le (by norm_num) (jsMin_le_left _ _)

/-- C2 witness: the amended bounds hold at a concrete resize-gesture move
on a 400 × 400 texture. -/
theorem C2_scale_bounds_witness :
    (getScaleConstraints 400 400).min ≤ onResizeMoveImage 1 50 100 400 400 ∧
      onResizeMoveImage 1 50 100 400 400 ≤ (getScaleConstraints 400 400).max :=
  C2_scale_bounds_amended.1 1 50 100 400 400
    (by norm_num [getScaleConstraints, jsMin, jsMax])

/-! C6 — tolerant load. -/

/-- C6: `loadCanvasData` materializes exactly the image entries whose
reference is valid and resolvable, skipping every failing entry without
raising an error (the materialization loop is total by construction: each
per-object failure path yields a skip, not an exception); in particular a
document with three image entries of which one has an invalid (empty)
reference yields exactly two live objects. -/
theorem C6_load_skips_failures :
    (∀ (resolve : String → Option (ℚ × ℚ)) (stored : List StoredImageData),
        (loadImages resolve stored).length =
          stored.countP fun si => validImageUrl si.imageUrl && (resolve si.imageUrl).isSome) ∧
    (loadImages (fun _ => some (64, 64))
        [{ id := "i1", imageUrl := "a.png", x := 0, y := 0, scale := 1 },
         { id := "i2", imageUrl := "", x := 3, y := 4, scale := 1 },
         { id := "i3", imageUrl := "b.png", x := 5, y := 6, scale := 2 }]).length = 2 := by
  constructor
  · intro resolve stored
    induction stored with
    | nil => rfl
    | cons si rest ih =>
      rw [List.countP_cons]
      unfold loadImages at ih ⊢
      rw [List.filterMap_cons]
      cases hv : validImageUrl si.imageUrl with
      | false => simp [hv, ih]
      | true =>
        cases hres : resolve si.imageUrl with
        | none => simp [hv, hres, ih]
        | some wh => cases wh with
          | mk w h => simp [hv, hres, ih]
  · decide

/-! C7 — resize-gesture scale formula. -/

/-- C7: during an image resize gesture, a pointer move with the matching
pointer identifier sets the scale to `startScale × (currentDistance /
startDistance)` — both distances taken between the pointer and the
object's center in the shared global/screen frame — clamped to
`[minScale, maxScale]`; starting at distance 50 with scale 1 and moving to
distance 100 yields scale 2. -/
theorem C7_resize_scale_formula :
    (∀ startScale startProj currentProj texW texH : ℚ,
        onResizeMoveImage startScale startProj currentProj texW texH =
          specResizeScale startScale startProj currentProj
            (getScaleConstraints texW texH).min 8) ∧
    onResizeMoveImage 1 50 100 400 400 = 2 := by
  constructor
  · intro s sp cp w h
    rfl
  · norm_num [onResizeMoveImage, getScaleConstraints, jsMin, jsMax]

/-! C8 — drag-gesture position formula. -/

/-- C8: the drag offset is captured once at grab time, and every matching
pointer move places the object at the pointer's world position minus the
captured world offset (for any pan offset, the container-space result
`e.global − dragOffset` equals the world-space formula, since the pan
cancels); grabbing at screen (150, 160) with the object at world
(100, 100) and moving to (250, 260) puts the object at (200, 200). -/
theorem C8_drag_position_formula :
    (∀ (panX panY gx0 gy0 px py gx gy : ℚ) (pid : ℤ),
        onDragMoveImage (onDragStartImage gx0 gy0 px py pid) pid gx gy px py =
          ((gx - panX) - ((gx0 - panX) - px), (gy - panY) - ((gy0 - panY) - py))) ∧
    onDragMoveImage (onDragStartImage 150 160 100 100 7) 7 250 260 100 100 = (200, 200) := by
  constructor
  · intro panX panY gx0 gy0 px py gx gy pid
    simp only [onDragStartImage, onDragMoveImage, and_self, if_true, true_and, Prod.mk.injEq]
    constructor <;> ring
  · norm_num [onDragStartImage, onDragMoveImage]

/-! C9 — mouse-wheel scaling. -/

/-- C9 (amended): when an image object is the current selection, a wheel
event immediately sets the selected image's scale (in the selection
reference, in the `images` collection entry and on the node) to
`clamp(scale × base^(∓Δ), minScale, maxScale)` with `base = 1.0015` and
the exponent's magnitude doubled under the ctrl modifier, bypassing the
drag/resize state machine and scheduling the same debounced save as a
resize-gesture end; but a wheel event while only a text object is selected
is ignored entirely. -/
theorem C9_wheel_scaling_amended :
    (∀ (imgs : List LiveImage) (txts : List LiveText) (selT : Option LiveText)
        (px py : ℚ) (sel : LiveImage) (deltaY : ℤ) (ctrl : Bool),
        handleWheel ⟨imgs, txts, some sel, selT, px, py⟩ deltaY ctrl =
          (⟨imgs.map fun img =>
                if img.id = sel.id then
                  { img with scale := specWheelScale sel.scale sel.texW sel.texH deltaY ctrl }
                else img,
             txts,
             some { sel with scale := specWheelScale sel.scale sel.texW sel.texH deltaY ctrl },
             selT, px, py⟩, true)) ∧
    (∀ (imgs : List LiveImage) (txts : List LiveText) (selT : Option LiveText)
        (px py : ℚ) (deltaY : ℤ) (ctrl : Bool),
        handleWheel ⟨imgs, txts, none, selT, px, py⟩ deltaY ctrl =
          (⟨imgs, txts, none, selT, px, py⟩, false)) := by
  constructor
  · intro imgs txts selT px py sel deltaY ctrl
    cases ctrl <;> rfl
  · intro imgs txts selT px py deltaY ctrl
    rfl

/-- Text object used by the C9 counterexample. -/
def wheelText : LiveText :=
  { id := "t1", text := "hi", x := 0, y := 0, color := "black",
    fontFamily := "Arial", scale := 1 }

/-- State in which a text object is the current (and only) selection. -/
def wheelTextState : CanvasState :=
  { images := [], texts := [wheelText], selectedImage := none,
    selectedText := some wheelText, panX := 0, panY := 0 }

/-- C9 counterexample: a wheel event while a text object is the current
selection changes nothing and schedules no save — `handleWheel` reads only
`selectedImageRef` — although the claimed update formula would change the
selected object's scale (to `1.0015` for `Δ = −1` at scale 1). -/
theorem C9_counterexample_text_selection_ignored :
    handleWheel wheelTextState (-1) false = (wheelTextState, false) ∧
      specWheelScale 1 100 100 (-1) false ≠ 1 := by
  constructor
  · rfl
  · norm_num [specWheelScale, getScaleConstraints, jsMin, jsMax]

/-! C4 — file import vs persistence-collaborator load. -/

/-- C4 (amended): the file-import path (`importFromJSON`, which feeds the
parsed document to `loadCanvasData`) and the persistence-collaborator path
(`loadFromAPI`, a separate inline implementation) materialize the same
image set from the same document, restore the same pan offset and both
leave no image selected; but they are not the same `load()` path: import
materializes the document's text objects, while `loadFromAPI` loads no
texts at all, leaving the previous text collection and text selection in
place. -/
theorem C4_import_vs_api_amended :
    ∀ (resolve : String → Option (ℚ × ℚ)) (s : CanvasState) (d : CanvasData),
      (importFromJSON resolve d).images = (loadFromAPI resolve s d).images ∧
      (importFromJSON resolve d).panX = (loadFromAPI resolve s d).panX ∧
      (importFromJSON resolve d).panY = (loadFromAPI resolve s d).panY ∧
      (importFromJSON resolve d).selectedImage = none ∧
      (loadFromAPI resolve s d).selectedImage = none ∧
      (importFromJSON resolve d).texts = loadTexts d.texts ∧
      (loadFromAPI resolve s d).texts = s.texts ∧
      (loadFromAPI resolve s d).selectedText = s.selectedText := by
  intro resolve s d
  exact ⟨rfl, rfl, rfl, rfl, rfl, rfl, rfl, rfl⟩

/-- Document containing a single (valid) text object and no images. -/
def oneTextDoc : CanvasData :=
  { images := [],
    texts := [{ id := "t1", text := "hi", x := 0, y := 0, color := "black",
                fontFamily := "Arial", scale := 1 }],
    canvasPosX := 0, canvasPosY := 0 }

/-- Empty live state. -/
def emptyLive : CanvasState :=
  { images := [], texts := [], selectedImage := none, selectedText := none,
    panX := 0, panY := 0 }

/-- C4 counterexample: the two load paths are not equivalent — importing a
document with one text object materializes that text, while loading the
identical document from the persistence collaborator yields no text
objects (its loop handles only images). -/
theorem C4_counterexample_api_drops_texts :
    (importFromJSON (fun _ => some (64, 64)) oneTextDoc).texts ≠
      (loadFromAPI (fun _ => some (64, 64)) emptyLive oneTextDoc).texts := by
  simp [importFromJSON, loadCanvasData, loadFromAPI, loadTexts, oneTextDoc, emptyLive,
    show ("hi" : String).isEmpty = false from rfl]

/-! C3 — save/load round trip. -/

/-- Rehydrating a saved image collection whose entries are all valid and
resolvable yields one live object per original object: the id, url and
scale survive exactly, the position is rounded to the nearest integer, and
the texture dimensions come from the resolution environment. -/
theorem loadImages_filterMap_save (resolve : String → Option (ℚ × ℚ)) (l : List LiveImage)
    (h : ∀ i ∈ l, validImageUrl i.imageUrl = true ∧ (resolve i.imageUrl).isSome ∧ i.scale ≠ 0) :
    loadImages resolve (l.filterMap saveImageEntry) =
      l.map fun i =>
        { id := i.id, imageUrl := i.imageUrl,
          x := (jsRound i.x : ℚ), y := (jsRound i.y : ℚ), scale := i.scale,
          texW := ((resolve i.imageUrl).getD (0, 0)).1,
          texH := ((resolve i.imageUrl).getD (0, 0)).2 } := by
  induction l with
  | nil => rfl
  | cons i rest ih =>
    obtain ⟨hv, hsome, hsc⟩ := h i (List.mem_cons_self i rest)
    obtain ⟨wh, hwh⟩ := Option.isSome_iff_exists.mp hsome
    obtain ⟨w, hgt⟩ := wh
    have hrest := ih fun x hx => h x (List.mem_cons_of_mem i hx)
    simp only [List.filterMap_cons, saveImageEntry, hv, if_true, List.map_cons]
    unfold loadImages
    simp only [List.filterMap_cons, hv, if_true, hwh]
    unfold loadImages at hrest
    rw [hrest, jsOrQ_zero, jsOrQ_zero, jsOrQ_of_ne _ _ hsc]
    rfl

/-- Rehydrating a saved text collection whose entries all have non-empty
content and non-zero scale reproduces the original collection exactly. -/
theorem loadTexts_map_save (l : List LiveText)
    (h : ∀ t ∈ l, t.text.isEmpty = false ∧ t.scale ≠ 0) :
    loadTexts (l.map saveTextEntry) = l := by
  induction l with
  | nil => rfl
  | cons t rest ih =>
    obtain ⟨hie, hsc⟩ := h t (List.mem_cons_self t rest)
    have hrest := ih fun x hx => h x (List.mem_cons_of_mem t hx)
    have hsc2 : jsOrQ t.scale 1 ≠ 0 := by rw [jsOrQ_of_ne _ _ hsc]; exact hsc
    unfold loadTexts at hrest ⊢
    simp only [List.map_cons, List.filterMap_cons, saveTextEntry, hie, Bool.false_eq_true,
      if_false, if_neg hsc2]
    rw [hrest, jsOrQ_zero, jsOrQ_zero, jsOrQ_of_ne _ _ hsc]

/-- Mapping a function over a list is pointwise related to the list. -/
theorem forall₂_map_self {α β : Type} (f : α → β) (P : β → α → Prop) (l : List α)
    (h : ∀ a ∈ l, P (f a) a) : List.Forall₂ P (l.map f) l := by
  induction l with
  | nil => exact List.Forall₂.nil
  | cons a rest ih =>
    exact List.Forall₂.cons (h a (List.mem_cons_self a rest))
      (ih fun x hx => h x (List.mem_cons_of_mem a hx))

/-- Live document with one image whose x coordinate is one half. -/
def rtDoc : CanvasState :=
  { images := [{ id := "i1", imageUrl := "a.png", x := 1 / 2, y := 0, scale := 1,
                 texW := 100, texH := 100 }],
    texts := [], selectedImage := none, selectedText := none, panX := 0, panY := 0 }

/-- C3 counterexample: the round trip does not preserve positions within
1e-6 — loading rounds each image position with `Math.round`, so an object
saved at x = 1/2 comes back at x = 1, an error of 1/2. -/
theorem C3_counterexample_position_rounded :
    ((loadCanvasData (fun _ => some (100, 100)) (saveToAPI rtDoc)).images.map
        fun i => i.x) = [1] ∧
      ¬ ((1 : ℚ) - 1 / 2 ≤ 1 / 1000000) := by
  constructor
  · simp [loadCanvasData, loadImages, saveToAPI, saveImageEntry, rtDoc, validImageUrl,
      show ("a.png" : String).isEmpty = false from rfl, jsOrQ]
    norm_num [jsRound]
  · norm_num

/-- C3 (amended): for a document whose objects all have valid resources
(valid resolvable urls, non-empty text content, non-zero scales), loading
the result of saving reproduces the document up to rounding: the pan
offset exactly, every object's id and scale exactly, text objects entirely
exactly, and each image position within 1/2 (it is rounded to the nearest
integer by `Math.round` on load), not within 1e-6. -/
theorem C3_roundtrip_amended (resolve : String → Option (ℚ × ℚ)) (D : CanvasState)
    (himg : ∀ i ∈ D.images,
      validImageUrl i.imageUrl = true ∧ (resolve i.imageUrl).isSome ∧ i.scale ≠ 0)
    (htxt : ∀ t ∈ D.texts, t.text.isEmpty = false ∧ t.scale ≠ 0) :
    (loadCanvasData resolve (saveToAPI D)).panX = D.panX ∧
    (loadCanvasData resolve (saveToAPI D)).panY = D.panY ∧
    ((loadCanvasData resolve (saveToAPI D)).images.map fun i => i.id) =
      D.images.map (fun i => i.id) ∧
    ((loadCanvasData resolve (saveToAPI D)).images.map fun i => i.scale) =
      D.images.map (fun i => i.scale) ∧
    List.Forall₂ (fun a b => |a.x - b.x| ≤ 1 / 2 ∧ |a.y - b.y| ≤ 1 / 2)
      (loadCanvasData resolve (saveToAPI D)).images D.images ∧
    (loadCanvasData resolve (saveToAPI D)).texts = D.texts := by
  have himgs := loadImages_filterMap_save resolve D.images himg
  have htxts := loadTexts_map_save D.texts htxt
  have hload : loadCanvasData resolve (saveToAPI D) =
      { images := loadImages resolve (D.images.filterMap saveImageEntry),
        texts := loadTexts (D.texts.map saveTextEntry),
        selectedImage := none, selectedText := none,
        panX := D.panX, panY := D.panY } := rfl
  rw [hload, himgs, htxts]
  refine ⟨rfl, rfl, ?_, ?_, ?_, rfl⟩
  · rw [List.map_map]
    rfl
  · rw [List.map_map]
    rfl
  · exact forall₂_map_self _ _ _ fun a _ => ⟨jsRound_abs_le a.x, jsRound_abs_le a.y⟩

/-- Resolution environment for the C3 witness. -/
def rtResolve : String → Option (ℚ × ℚ) := fun _ => some (50, 50)

/-- Live document for the C3 witness: one valid image and one valid text. -/
def rtWitnessDoc : CanvasState :=
  { images := [{ id := "w1", imageUrl := "w.png", x := 3, y := 4, scale := 2,
                 texW := 50, texH := 50 }],
    texts := [{ id := "wt", text := "hey", x := 5, y := 6, color := "red",
                fontFamily := "Arial", scale := 3 }],
    selectedImage := none, selectedText := none, panX := 7, panY := 8 }

/-- C3 witness: the amended round-trip guarantees hold on a concrete valid
document. -/
theorem C3_roundtrip_witness :
    (loadCanvasData rtResolve (saveToAPI rtWitnessDoc)).panX = rtWitnessDoc.panX ∧
    (loadCanvasData rtResolve (saveToAPI rtWitnessDoc)).panY = rtWitnessDoc.panY ∧
    ((loadCanvasData rtResolve (saveToAPI rtWitnessDoc)).images.map fun i => i.id) =
      rtWitnessDoc.images.map (fun i => i.id) ∧
    ((loadCanvasData rtResolve (saveToAPI rtWitnessDoc)).images.map fun i => i.scale) =
      rtWitnessDoc.images.map (fun i => i.scale) ∧
    List.Forall₂ (fun a b => |a.x - b.x| ≤ 1 / 2 ∧ |a.y - b.y| ≤ 1 / 2)
      (loadCanvasData rtResolve (saveToAPI rtWitnessDoc)).images rtWitnessDoc.images ∧
    (loadCanvasData rtResolve (saveToAPI rtWitnessDoc)).texts = rtWitnessDoc.texts :=
  C3_roundtrip_amended rtResolve rtWitnessDoc
    (by
      intro i hi
      simp only [rtWitnessDoc, List.mem_singleton] at hi
      subst hi
      refine ⟨rfl, rfl, by norm_num⟩)
    (by
      intro t ht
      simp only [rtWitnessDoc, List.mem_singleton] at ht
      subst ht
      exact ⟨rfl, by norm_num⟩)

/-! C5 — debounced auto-save. -/

/-- Trailing-edge debounce: a chronological run of triggers in which each
trigger arrives before the previous timer's fire time produces exactly one
save, fired one `debounceDelay` after the last trigger, serializing the
state read at that fire time — provided the snapshot captured at the last
trigger is non-empty. -/
theorem runDebounce_window (stateAt : ℚ → CanvasData) :
    ∀ (trs : List Trigger) (h : trs ≠ []),
      trs.Chain' (fun a b => a.time ≤ b.time ∧ b.time < a.time + debounceDelay) →
      (0 < (trs.getLast h).snap.nImages ∨ 0 < (trs.getLast h).snap.nTexts) →
      runDebounce stateAt trs none =
        [((trs.getLast h).time + debounceDelay,
          stateAt ((trs.getLast h).time + debounceDelay))]
  | [], h, _, _ => absurd rfl h
  | [tr], _, _, hlast => by
      simp only [List.getLast_singleton] at hlast ⊢
      show fireSave stateAt (tr.time + debounceDelay) tr.snap = _
      rw [fireSave, if_pos hlast]
  | tr :: tr2 :: rest, _, hchain, hlast => by
      rw [List.chain'_cons] at hchain
      obtain ⟨⟨hle, hlt⟩, hchain2⟩ := hchain
      have hne : tr2 :: rest ≠ [] := by simp
      have hgl : (tr :: tr2 :: rest).getLast (by simp) = (tr2 :: rest).getLast hne := by
        rw [List.getLast_cons]
      rw [hgl] at hlast ⊢
      have hstep : runDebounce stateAt (tr :: tr2 :: rest) none =
          runDebounce stateAt (tr2 :: rest) none := by
        show (if tr.time + debounceDelay < tr2.time then
                fireSave stateAt (tr.time + debounceDelay) tr.snap ++
                  runDebounce stateAt rest (some (tr2.time + debounceDelay, tr2.snap))
              else runDebounce stateAt rest (some (tr2.time + debounceDelay, tr2.snap))) =
          runDebounce stateAt (tr2 :: rest) none
        rw [if_neg (not_lt.mpr (le_of_lt hlt))]
        rfl
      rw [hstep]
      exact runDebounce_window stateAt (tr2 :: rest) hne hchain2 hlast

/-- C5 (amended): scheduling `n ≥ 1` save triggers within one 2000 ms
debounce window results in exactly one underlying save call, fired 2000 ms
after the last trigger (trailing edge: each trigger clears the previous
timer), serializing the document state read at the moment the window
elapses — provided the collection-length snapshot captured at the last
trigger is non-empty; a window whose last trigger captured empty
collections produces no save at all. -/
theorem C5_debounce_collapses (stateAt : ℚ → CanvasData) (trs : List Trigger)
    (h : trs ≠ [])
    (hchain : trs.Chain' fun a b => a.time ≤ b.time ∧ b.time < a.time + debounceDelay)
    (hlast : 0 < (trs.getLast h).snap.nImages ∨ 0 < (trs.getLast h).snap.nTexts) :
    runDebounce stateAt trs none =
      [((trs.getLast h).time + debounceDelay,
        stateAt ((trs.getLast h).time + debounceDelay))] :=
  runDebounce_window stateAt trs h hchain hlast

/-- The document serialized by the C5 witness's state function. -/
def emptyDoc : CanvasData := { images := [], texts := [], canvasPosX := 0, canvasPosY := 0 }

/-- C5 witness: two triggers at 0 ms and 1000 ms with non-empty snapshots
collapse into the single save at 3000 ms. -/
theorem C5_debounce_witness :
    runDebounce (fun _ => emptyDoc)
        [{ time := 0, snap := { nImages := 1, nTexts := 0 } },
         { time := 1000, snap := { nImages := 1, nTexts := 0 } }] none =
      [(1000 + debounceDelay, emptyDoc)] := by
  have h := C5_debounce_collapses (fun _ => emptyDoc)
    [{ time := 0, snap := { nImages := 1, nTexts := 0 } },
     { time := 1000, snap := { nImages := 1, nTexts := 0 } }] (by simp)
    (by
      refine List.chain'_cons.mpr ⟨⟨by norm_num, by norm_num [debounceDelay]⟩, ?_⟩
      exact List.chain'_singleton _)
    (by simp)
  exact h

/-- C5 counterexample: a single trigger whose captured snapshot is empty
(for example a pan gesture on an empty canvas) produces zero saves, not
exactly one. -/
theorem C5_counterexample_empty_snapshot :
    (runDebounce (fun _ => emptyDoc)
        [{ time := 0, snap := { nImages := 0, nTexts := 0 } }] none).length ≠ 1 := by
  have hrun : runDebounce (fun _ => emptyDoc)
      [{ time := 0, snap := { nImages := 0, nTexts := 0 } }] none = [] := by
    show fireSave (fun _ => emptyDoc) ((0 : ℚ) + debounceDelay)
      { nImages := 0, nTexts := 0 } = []
    rw [fireSave, if_neg]
    simp
  rw [hrun]
  simp

/-! C10 — deleting the last object. -/

/-- The single image on the canvas in the C10 scenario. -/
def soleImage : LiveImage :=
  { id := "i1", imageUrl := "a.png", x := 10, y := 20, scale := 1, texW := 100, texH := 100 }

/-- Canvas state holding exactly one (selected) image and no texts. -/
def oneImageState : CanvasState :=
  { images := [soleImage], texts := [], selectedImage := some soleImage,
    selectedText := none, panX := 0, panY := 0 }

/-- C10: deleting the last remaining object DOES persist the emptied
document.  `handleDeleteImage` invokes `debouncedAutoSaveRef.current`
synchronously, before the deletion has re-rendered the component, so the
scheduled timeout tests the pre-deletion snapshot (1 image), while
`saveToAPIRef.current` at fire time serializes the post-deletion (empty)
state: the timer fires with both collections empty and still issues one
save of the empty document. -/
theorem C10_delete_last_persists_empty :
    (handleDeleteImage oneImageState "i1").1.images = [] ∧
    (handleDeleteImage oneImageState "i1").1.texts = [] ∧
    (handleDeleteImage oneImageState "i1").2 = { nImages := 1, nTexts := 0 } ∧
    runDebounce (fun _ => saveToAPI (handleDeleteImage oneImageState "i1").1)
        [{ time := 0, snap := (handleDeleteImage oneImageState "i1").2 }] none =
      [(0 + debounceDelay, { images := [], texts := [], canvasPosX := 0, canvasPosY := 0 })] := by
  refine ⟨?_, rfl, rfl, ?_⟩
  · simp [handleDeleteImage, oneImageState, soleImage]
  · show fireSave (fun _ => saveToAPI (handleDeleteImage oneImageState "i1").1)
      ((0 : ℚ) + debounceDelay) (handleDeleteImage oneImageState "i1").2 =
      [(0 + debounceDelay, { images := [], texts := [], canvasPosX := 0, canvasPosY := 0 })]
    rw [fireSave, if_pos]
    · simp [saveToAPI, handleDeleteImage, oneImageState, soleImage]
    · exact Or.inl one_pos

end Canvas
